import Mathlib

/-!
Verification development for the versioning/replay core of the code_graph
repository: the backlog recorder (`api/graph.py`), the commit graph store
(`code_graph/git_utils/git_graph.py`), the history builder and the checkpoint
switcher (`code_graph/git_utils/git_utils.py`).

The Python sources are shallowly embedded: each Python function becomes a Lean
function over explicit state; database effects are modelled by the state they
produce; external collaborators (the query engine, the analyzer, the git
binary) are parameters.  Cypher query texts are carried verbatim (braces
written as \x7b/\x7d escapes) so that the set of `$`-parameters a query
references is computed from the text itself, exactly as FalkorDB does when it
rejects a query whose referenced parameters were not supplied.
-/

deriving instance DecidableEq for Except

/-- Python-level errors surfaced by the embedded code. -/
inductive PyErr where
  | valueError : String → PyErr
  | typeError : String → PyErr
  | exception : String → PyErr
  | indexError : PyErr
  | missingParams : PyErr
deriving Repr, DecidableEq

/-- A value bound to a query parameter name. -/
inductive Val where
  | str : String → Val
  | strList : List String → Val
  | int : Int → Val
deriving Repr, DecidableEq

/-- Characters that may appear in a Cypher parameter name after `$`. -/
def identChar (c : Char) : Bool := c.isAlphanum || c == '_'

/-- Scan a query text for `$name` parameter references.  The second argument
is `some acc` while inside a parameter name (accumulated reversed). -/
def dollarScan : List Char → Option (List Char) → List String
  | [], none => []
  | [], some acc => [String.mk acc.reverse]
  | c :: cs, none =>
    if c == '$' then dollarScan cs (some []) else dollarScan cs none
  | c :: cs, some acc =>
    if identChar c then dollarScan cs (some (c :: acc))
    else if c == '$' then String.mk acc.reverse :: dollarScan cs (some [])
    else String.mk acc.reverse :: dollarScan cs none

/-- The parameter names referenced by a query text. -/
def dollarParams (q : String) : List String := dollarScan q.data none

/-- The names bound by a parameter dictionary. -/
def boundKeys (bound : List (String × Val)) : List String := bound.map Prod.fst

/-- FalkorDB rejects a query that references a parameter the caller did not
bind ("Missing parameters"), before any matching takes place. -/
def checkParams (q : String) (bound : List (String × Val)) : Except PyErr Unit :=
  if (dollarParams q).all (fun n => (boundKeys bound).contains n) then .ok ()
  else .error .missingParams

/-! ## Backlog recorder — `api/graph.py`, class `Graph` -/

/-- The result of one engine query: the rows plus the change counters FalkorDB
reports.  Rows are opaque (node identifiers). -/
structure QueryResult where
  result_set : List (List Int)
  relationships_deleted : Nat
  nodes_deleted : Nat
  labels_added : Nat
  labels_removed : Nat
  nodes_created : Nat
  properties_set : Nat
  properties_removed : Nat
  relationships_created : Nat
deriving Repr, DecidableEq

/-- The backlog dict `{'queries': [...], 'params': [...]}`. -/
structure Backlog where
  queries : List String
  params : List (Option String)
deriving Repr, DecidableEq

/-- The Python `Graph` object: a graph name plus the process-local backlog
(`None` when disabled).  A query parameter dict is carried opaquely as its
serialized form (`Option String`, `none` for Python `None`). -/
structure Graph where
  name : String
  backlog : Option Backlog
deriving Repr, DecidableEq

/-- `Graph.enable_backlog`: initializes an empty backlog. -/
def Graph.enable_backlog (g : Graph) : Graph :=
  { g with backlog := some ⟨[], []⟩ }

/-- `Graph.disable_backlog`: sets the backlog to `None`. -/
def Graph.disable_backlog (g : Graph) : Graph :=
  { g with backlog := none }

/-- `Graph.clear_backlog`: returns the backlog lists and resets them.
`if self.backlog:` is Python truthiness — the backlog dict has two keys, so it
is truthy whenever it is not `None`, even when both lists are empty. -/
def Graph.clear_backlog (g : Graph) : (List String × List (Option String)) × Graph :=
  match g.backlog with
  | some b => ((b.queries, b.params), { g with backlog := some ⟨[], []⟩ })
  | none => (([], []), g)

/-- `change_detected` in `Graph._query`: `any(getattr(result_set, attr) > 0
for attr in [...])`, attributes listed in source order. -/
def change_detected (s : QueryResult) : Bool :=
  decide (0 < s.relationships_deleted) || decide (0 < s.nodes_deleted) ||
  decide (0 < s.labels_added) || decide (0 < s.labels_removed) ||
  decide (0 < s.nodes_created) || decide (0 < s.properties_set) ||
  decide (0 < s.properties_removed) || decide (0 < s.relationships_created)

/-- `Graph._query`: execute the query on the engine, then — when the backlog
is enabled — append the (query, params) pair whenever any change counter is
positive.  The engine result is returned unaltered. -/
def Graph._query (g : Graph) (engine : String → Option String → QueryResult)
    (q : String) (params : Option String) : QueryResult × Graph :=
  let result_set := engine q params
  match g.backlog with
  | none => (result_set, g)
  | some b =>
    if change_detected result_set then
      (result_set, { g with backlog := some ⟨b.queries ++ [q], b.params ++ [params]⟩ })
    else
      (result_set, { g with backlog := some b })

/-- `Graph.clone` (identical in `code_graph/graph.py` and `api/graph.py`):
refuse when the target key already exists, otherwise copy the graph and spin
until the key is visible, then hand back a fresh handle (whose `__init__`
leaves the backlog disabled).  The store is the set of existing keys. -/
def Graph.clone (store : List String) (_g : Graph) (clone : String) :
    (Except PyErr Graph) × List String :=
  if store.contains clone then
    (.error (.exception ("Can not create clone, key: " ++ clone ++ " already exists.")), store)
  else
    (.ok ⟨clone, none⟩, store ++ [clone])

/-- `Graph.delete`: remove the graph key from the store. -/
def Graph.delete (store : List String) (g : Graph) : List String :=
  store.erase g.name

/-! ## Commit graph store — `code_graph/git_utils/git_graph.py`, class `GitGraph` -/

/-- A `Commit` node: hash (key), author, message, committed date. -/
structure Commit where
  hash : String
  author : String
  message : String
  date : Int
deriving Repr, DecidableEq

/-- A directed edge of the commit graph (either kind), optionally carrying the
transition payload properties `queries` and `params` (each a list property;
`none` models an absent/null property). -/
structure TransEdge where
  src : String
  dst : String
  queries : Option (List String)
  params : Option (List String)
deriving Repr, DecidableEq

/-- The commit graph: `Commit` nodes, `PARENT` edges (child to parent) and
`CHILD` edges (parent to child), in storage (insertion) order. -/
structure GitGraph where
  commits : List Commit
  parentEdges : List TransEdge
  childEdges : List TransEdge
deriving Repr, DecidableEq

/-- Query text of `GitGraph.add_commit` (git_graph.py line 43). -/
def addCommitQ : String :=
  "MERGE (c:Commit \x7bhash: $hash, author: $author, message: $message, date: $date\x7d)"

/-- Query text of `GitGraph.get_commits` (git_graph.py lines 58-60). -/
def getCommitsQ : String :=
  "MATCH (c:Commit) WHERE c.hash IN $hashes RETURN c"

/-- Query text of `GitGraph.connect_commits` (git_graph.py lines 77-79). -/
def connectCommitsQ : String :=
  "MATCH (child :Commit \x7bhash: $child_hash\x7d), (parent :Commit \x7bhash: $parent_hash\x7d) MERGE (child)-[:PARENT]->(parent) MERGE (parent)-[:CHILD]->(child)"

/-- Query text of `GitGraph.set_parent_transition` (git_graph.py lines 92-93). -/
def setParentTransitionQ : String :=
  "MATCH (child :Commit \x7bhash: $child\x7d)-[e:PARENT]->(parent :Commit \x7bhash: $parent\x7d) SET e.queries = $queries, e.params = $params"

/-- Query text of `GitGraph.set_child_transition` (git_graph.py lines 106-107). -/
def setChildTransitionQ : String :=
  "MATCH (parent :Commit \x7bhash: $parent\x7d)-[e:CHILD]->(child :Commit \x7bhash: $child\x7d) SET e.queries = $queries, e.params = $params"

/-- Query text of `GitGraph.get_parent_transitions` (git_graph.py lines 118-125). -/
def getParentTransitionsQ : String :=
  "MATCH path = (:Commit \x7bhash: $child_hash\x7d)-[:PARENT*]->(:Commit \x7bhash: $parent_hash\x7d) WITH path LIMIT 1 UNWIND relationships(path) AS e WITH e WHERE e.queries is not NULL RETURN collect(e.queries), collect(e.params)"

/-- Query text of `GitGraph.get_child_transitions` (git_graph.py lines 136-143). -/
def getChildTransitionsQ : String :=
  "MATCH path = (:Commit \x7bhash: $parent_hash\x7d)-[:CHILD*]->(:Commit \x7bhash: $child_hash\x7d) WITH path LIMIT 1 UNWIND relationships(path) AS e WITH e WHERE e.queries is not NULL RETURN collect(e.queries), collect(e.params)"

/-- `GitGraph.add_commit(commit_hash, author, message, date)`: `MERGE` a
commit node — an upsert keyed by the full property pattern. -/
def GitGraph.add_commit (st : GitGraph) (commit_hash author message : String)
    (date : Int) : Except PyErr GitGraph := do
  let _ ← checkParams addCommitQ
    [("hash", .str commit_hash), ("author", .str author),
     ("message", .str message), ("date", .int date)]
  let c : Commit := ⟨commit_hash, author, message, date⟩
  pure (if st.commits.contains c then st else { st with commits := st.commits ++ [c] })

/-- `GitGraph.get_commits(hashes)`: the commits whose hash is in `hashes`, in
storage order. -/
def GitGraph.get_commits (st : GitGraph) (hashes : List String) :
    Except PyErr (List Commit) := do
  let _ ← checkParams getCommitsQ [("hashes", .strList hashes)]
  pure (st.commits.filter (fun c => hashes.contains c.hash))

/-- `GitGraph.connect_commits(child, parent)`: when both nodes exist, `MERGE`
the PARENT edge (child to parent) and the CHILD edge (parent to child);
matching nothing is a silent no-op. -/
def GitGraph.connect_commits (st : GitGraph) (child parent : String) :
    Except PyErr GitGraph := do
  let _ ← checkParams connectCommitsQ
    [("child_hash", .str child), ("parent_hash", .str parent)]
  if (st.commits.any (fun c => c.hash == child)) &&
     (st.commits.any (fun c => c.hash == parent)) then
    pure { st with
      parentEdges :=
        if st.parentEdges.any (fun e => e.src == child && e.dst == parent)
        then st.parentEdges else st.parentEdges ++ [⟨child, parent, none, none⟩],
      childEdges :=
        if st.childEdges.any (fun e => e.src == parent && e.dst == child)
        then st.childEdges else st.childEdges ++ [⟨parent, child, none, none⟩] }
  else
    pure st

/-- `GitGraph.set_parent_transition(child, parent, queries, params)`: bind all
four referenced parameters and `SET` the payload on every single-hop PARENT
edge from `child` to `parent` (matching nothing sets nothing and succeeds). -/
def GitGraph.set_parent_transition (st : GitGraph) (child parent : String)
    (queries params : List String) : Except PyErr GitGraph := do
  let _ ← checkParams setParentTransitionQ
    [("child", .str child), ("parent", .str parent),
     ("queries", .strList queries), ("params", .strList params)]
  pure { st with parentEdges := st.parentEdges.map (fun e =>
    if e.src = child ∧ e.dst = parent
    then { e with queries := some queries, params := some params } else e) }

/-- `GitGraph.set_child_transition(child, parent, queries, params)`: the
source builds the bound dict as `{'child': .., 'parent': .., 'queries': ..}`
(git_graph.py line 109) — the `params` entry is omitted although the query
text references `$params`, so the parameter check fails on every call. -/
def GitGraph.set_child_transition (st : GitGraph) (child parent : String)
    (queries params : List String) : Except PyErr GitGraph := do
  let _ ← checkParams setChildTransitionQ
    [("child", .str child), ("parent", .str parent), ("queries", .strList queries)]
  pure { st with childEdges := st.childEdges.map (fun e =>
    if e.src = parent ∧ e.dst = child
    then { e with queries := some queries, params := some params } else e) }

/-- Path resolution for `-[:KIND*]->` (one or more hops, first path, as used
on the linear histories the builder constructs, where every node has at most
one outgoing edge of each kind): follow the first outgoing edge until the
destination is reached, bounded by fuel. -/
def followPath (edges : List TransEdge) : Nat → String → String → Option (List TransEdge)
  | 0, _, _ => none
  | Nat.succ fuel, src, dst =>
    match edges.find? (fun e => e.src == src) with
    | none => none
    | some e =>
      if e.dst = dst then some [e]
      else
        match followPath edges fuel e.dst dst with
        | some p => some (e :: p)
        | none => none

/-- `GitGraph.get_parent_transitions(child, parent)`: the per-edge payloads
along the PARENT-direction path, keeping (`collect`) only edges whose
`queries` property is not null; when no path matches, the result set is empty
and `res[0]` raises IndexError. -/
def GitGraph.get_parent_transitions (st : GitGraph) (child parent : String) :
    Except PyErr (List (List String) × List (List String)) := do
  let _ ← checkParams getParentTransitionsQ
    [("child_hash", .str child), ("parent_hash", .str parent)]
  match followPath st.parentEdges (st.parentEdges.length + 1) child parent with
  | none => Except.error .indexError
  | some es =>
    let es2 := es.filter (fun e => e.queries.isSome)
    pure ((es2.map (fun e => e.queries)).filterMap id,
          (es2.map (fun e => e.params)).filterMap id)

/-- `GitGraph.get_child_transitions(child, parent)`: as above along the
CHILD-direction path from `parent` to `child`. -/
def GitGraph.get_child_transitions (st : GitGraph) (child parent : String) :
    Except PyErr (List (List String) × List (List String)) := do
  let _ ← checkParams getChildTransitionsQ
    [("child_hash", .str child), ("parent_hash", .str parent)]
  match followPath st.childEdges (st.childEdges.length + 1) parent child with
  | none => Except.error .indexError
  | some es =>
    let es2 := es.filter (fun e => e.queries.isSome)
    pure ((es2.map (fun e => e.queries)).filterMap id,
          (es2.map (fun e => e.params)).filterMap id)

/-! ## Checkpoint switcher — `code_graph/git_utils/git_utils.py`, `switch_commit` -/

/-- The checkpoint store: one scalar entry per repository name. -/
abbrev CkptStore := List (String × String)

/-- Modelled from the spec: `get_repo_commit` is called by `switch_commit`
(git_utils.py line 332) but defined nowhere under the sources; per spec §6
the checkpoint is "a single scalar keyed by repository name, stored outside
the graph itself (e.g., a key-value entry)".  Reads that entry. -/
def get_repo_commit (st : CkptStore) (repo : String) : Option String :=
  (st.find? (fun kv => kv.1 == repo)).map (fun kv => kv.2)

/-- Modelled from the spec: `set_repo_commit` is called by `switch_commit`
(git_utils.py line 380) but defined nowhere under the sources; per spec §4.4
step 6 it writes the target hash as the new checkpoint for the repository. -/
def set_repo_commit (st : CkptStore) (repo tgt : String) : CkptStore :=
  (st.filter (fun kv => !(kv.1 == repo))) ++ [(repo, tgt)]

/-- The change-set dictionary `switch_commit` initializes and returns. -/
structure ChangeSet where
  deletions_nodes : List Int
  deletions_edges : List Int
  additions_nodes : List Int
  additions_edges : List Int
  modifications_nodes : List Int
  modifications_edges : List Int
deriving Repr, DecidableEq

/-- The empty change set built at the top of `switch_commit`. -/
def emptyChangeSet : ChangeSet := ⟨[], [], [], [], [], []⟩

/-- The outcome of a successful switch: the returned change set, plus the
trace of (query, params) pairs executed against the live graph via
`g.rerun_query`, in execution order. -/
structure SwitchOutcome where
  change_set : ChangeSet
  executed : List (String × String)
deriving Repr, DecidableEq

/-- Does `sub` occur at the head of `s`? -/
def leadMatch : List Char → List Char → Bool
  | [], _ => true
  | _ :: _, [] => false
  | a :: as, b :: bs => a == b && leadMatch as bs

/-- Does `sub` occur anywhere in `s`? -/
def occursIn (sub : List Char) : List Char → Bool
  | [] => leadMatch sub []
  | c :: cs => leadMatch sub (c :: cs) || occursIn sub cs

/-- Python substring membership, `sub in s`. -/
def strContains (s sub : String) : Bool := occursIn sub.data s.data

/-- Concatenation of a list of lists. -/
def listJoin : List (List α) → List α
  | [] => []
  | l :: ls => l ++ listJoin ls

/-- The flattened execution order of `for q, p in zip(queries, params): for
_q, _p in zip(q, p)` (git_utils.py lines 368-369): per-edge payloads in path
order, pairs within each payload in recorded order. -/
def flattenTransitions (queries params : List (List String)) : List (String × String) :=
  listJoin ((queries.zip params).map (fun qp => qp.1.zip qp.2))

/-- The replay loop body (git_utils.py lines 368-377): run every pair through
`g.rerun_query` (modelled by `exec`, which yields `res.result_set[0][0]`, the
list of deleted node identifiers) and, when the query text contains "DELETE",
extend `change_set['deletions']['nodes']`.  Also returns the executed trace. -/
def runTransitions (exec : String → String → List Int) :
    List (String × String) → ChangeSet → ChangeSet × List (String × String)
  | [], cs => (cs, [])
  | (q, p) :: rest, cs =>
    let res := exec q p
    let cs2 := if strContains q "DELETE"
               then { cs with deletions_nodes := cs.deletions_nodes ++ res }
               else cs
    let r := runTransitions exec rest cs2
    (r.1, (q, p) :: r.2)

/-- Default commit used for list indexing. -/
def dfltCommit : Commit := ⟨"", "", "", 0⟩

/-- The hash list `switch_commit` passes to `get_commits`: Python passes
`[current_hash, to]` where `current_hash` may be `None`; a null element of a
Cypher `IN` list matches no hash, so only the target is looked up then. -/
def lookupHashes : Option String → String → List String
  | some c, t => [c, t]
  | none, t => [t]

/-- `switch_commit(repo, to)` (git_utils.py lines 274-383; the Python
parameter `to` is a reserved word here and is named `tgt`): validate the
arguments, read the checkpoint, return an empty change set when already at
the target, fetch both commits (error when fewer or more than two are found),
orient by comparing committed dates (strictly later means a backward move
replaying PARENT transitions, otherwise a forward move replaying CHILD
transitions), replay, then write the new checkpoint.  The checkpoint store is
threaded through so that failures leave it visibly untouched. -/
def switch_commit (exec : String → String → List Int) (ck : CkptStore)
    (gg : GitGraph) (repo tgt : String) : (Except PyErr SwitchOutcome) × CkptStore :=
  if repo = "" then (.error (.valueError "Invalid repository name"), ck)
  else if tgt = "" then (.error (.valueError "Invalid desired commit value"), ck)
  else
    let current_hash := get_repo_commit ck repo
    if current_hash = some tgt then (.ok ⟨emptyChangeSet, []⟩, ck)
    else
      match gg.get_commits (lookupHashes current_hash tgt) with
      | .error e => (.error e, ck)
      | .ok commits =>
        if commits.length = 2 then
          let c0 := commits.getD 0 dfltCommit
          let c1 := commits.getD 1 dfltCommit
          let pair := if some c0.hash = current_hash then (c0, c1) else (c1, c0)
          let current_commit := pair.1
          let new_commit := pair.2
          let trans :=
            if current_commit.date > new_commit.date then
              gg.get_parent_transitions current_commit.hash new_commit.hash
            else
              gg.get_child_transitions new_commit.hash current_commit.hash
          match trans with
          | .error e => (.error e, ck)
          | .ok (queries, params) =>
            let r := runTransitions exec (flattenTransitions queries params) emptyChangeSet
            (.ok ⟨r.1, r.2⟩, set_repo_commit ck repo tgt)
        else
          (.error (.valueError "Commits not found"), ck)

/-! ## History builder — `code_graph/git_utils/git_utils.py`, `build_commit_graph` -/

/-- A git commit as GitPython presents it. -/
structure GCommit where
  hexsha : String
  author : String
  message : String
  date : Int
  parents : List String
deriving Repr, DecidableEq

/-- A git repository: its commits and the HEAD commit hash. -/
structure GitRepo where
  commits : List GCommit
  head : String
deriving Repr, DecidableEq

/-- Python positional-argument binding: a bound method whose signature has
`required` required positional parameters (and no defaults), called with
`given` positional arguments, raises TypeError unless the counts agree. -/
def pyBindArgs (fname : String) (required given : Nat) : Except PyErr Unit :=
  if given = required then .ok ()
  else if given < required then
    .error (.typeError (fname ++ "() missing " ++ toString (required - given) ++
      " required positional arguments"))
  else
    .error (.typeError (fname ++ "() takes " ++ toString required ++
      " positional arguments but " ++ toString given ++ " were given"))

/-- Result of a builder run: the populated commit graph on success. -/
abbrev BuildOutcome := Except PyErr GitGraph

/-- `build_commit_graph(path, repo_name, ignore_list)` (git_utils.py lines
63-272).  Clone the live graph into the `<repo>_tmp` scratch graph (line 85;
fails when the key exists) and arm its backlog (line 86); then line 99 calls
`git_graph.add_commit(current_commit)` — a single positional argument passed
to a method whose signature (git_graph.py line 39) requires four
`(commit_hash, author, message, date)` — so Python raises TypeError on every
run before any commit is recorded.  The remainder (lines 100-272: both walks
and the success-path cleanup `g.disable_backlog(); g.delete()`) is therefore
unreachable and is abstracted as the continuation `rest`; every theorem below
holds for an arbitrary `rest`.  No error handler exists anywhere in the
function, so an error at any point propagates without cleanup. -/
def build_commit_graph (store : List String) (repo : GitRepo) (repo_name : String)
    (rest : Graph → List String → BuildOutcome × List String) :
    BuildOutcome × List String :=
  match Graph.clone store ⟨repo_name, none⟩ (repo_name ++ "_tmp") with
  | (.error e, store2) => (.error e, store2)
  | (.ok g, store2) =>
    let g := Graph.enable_backlog g
    let _current_commit := repo.commits.find? (fun c => c.hexsha == repo.head)
    match pyBindArgs "add_commit" 4 1 with
    | .error e => (.error e, store2)
    | .ok _ => rest g store2

/-! ## Derived notions and concrete fixtures -/

/-- The node identifiers a replay of `ops` deletes: the concatenation, in
execution order, of the engine results of exactly those operations whose text
contains "DELETE". -/
def deletionsOf (exec : String → String → List Int) (ops : List (String × String)) : List Int :=
  listJoin (ops.map (fun qp => if strContains qp.1 "DELETE" then exec qp.1 qp.2 else []))

/-- Fixture commit with hash "a". -/
def commitA : Commit := ⟨"a", "alice", "first", 1⟩

/-- Fixture commit with hash "b". -/
def commitB : Commit := ⟨"b", "bob", "second", 2⟩

/-- Fixture commit with hash "c". -/
def commitC : Commit := ⟨"c", "carol", "third", 3⟩

/-- Two adjacent commits, b the child of a, no payloads. -/
def ggAB : GitGraph :=
  ⟨[commitA, commitB], [⟨"b", "a", none, none⟩], [⟨"a", "b", none, none⟩]⟩

/-- A three-commit chain c -> b -> a: c and a are not directly adjacent. -/
def ggABC : GitGraph :=
  ⟨[commitA, commitB, commitC],
   [⟨"c", "b", none, none⟩, ⟨"b", "a", none, none⟩],
   [⟨"b", "c", none, none⟩, ⟨"a", "b", none, none⟩]⟩

/-- A deletion query as the builder records them. -/
def delQ : String :=
  "MATCH (f:File) WHERE ID(f) IN $ids DETACH DELETE f RETURN collect(ID(f))"

/-- A PARENT edge from b to a carrying a one-operation payload. -/
def payEdge : TransEdge := ⟨"b", "a", some [delQ], some ["\x7b\x7d"]⟩

/-- Two adjacent commits with a recorded PARENT-direction payload. -/
def ggPay : GitGraph := ⟨[commitA, commitB], [payEdge], [⟨"a", "b", none, none⟩]⟩

/-- A concrete engine whose delete queries report node 7 deleted. -/
def execW : String → String → List Int := fun _ _ => [7]

/-- A checkpoint store with repository "r" checkpointed at commit "b". -/
def ckW : CkptStore := [("r", "b")]

/-- A one-commit repository. -/
def repoOne : GitRepo := ⟨[⟨"h1", "alice", "first", 1, []⟩], "h1"⟩

/-- An arbitrary stand-in for the unreachable continuation of the builder. -/
def restStub : Graph → List String → BuildOutcome × List String :=
  fun _ s => (.error .indexError, s)

/-! ## Helper lemmas -/

/-- Mapping a function that fixes every element of a list is the identity. -/
theorem map_id_of_fixed {α : Type} (f : α → α) :
    ∀ (l : List α), (∀ a ∈ l, f a = a) → l.map f = l
  | [], _ => rfl
  | a :: as, h => by
    simp only [List.map_cons]
    rw [h a (by simp), map_id_of_fixed f as (fun x hx => h x (by simp [hx]))]

/-- Appending a singleton always contains the appended element. -/
theorem contains_append_self {α : Type} [BEq α] [LawfulBEq α] (l : List α) (x : α) :
    (l ++ [x]).contains x = true := by
  simp

/-- `change_detected` holds exactly when some change counter is positive. -/
theorem change_detected_iff (s : QueryResult) :
    change_detected s = true ↔
      (0 < s.nodes_created ∨ 0 < s.nodes_deleted ∨
       0 < s.relationships_created ∨ 0 < s.relationships_deleted ∨
       0 < s.properties_set ∨ 0 < s.properties_removed ∨
       0 < s.labels_added ∨ 0 < s.labels_removed) := by
  simp only [change_detected, Bool.or_eq_true, decide_eq_true_eq]
  tauto

/-- The replay loop, characterized: it executes the operations in order,
extends the deletion list by exactly the engine results of the operations
whose text contains "DELETE", and touches nothing else. -/
theorem runTransitions_spec (exec : String → String → List Int) :
    ∀ (ops : List (String × String)) (cs : ChangeSet),
      runTransitions exec ops cs =
        ({ cs with deletions_nodes := cs.deletions_nodes ++ deletionsOf exec ops }, ops)
  | [], cs => by simp [runTransitions, deletionsOf, listJoin]
  | (q, p) :: rest, cs => by
    simp only [runTransitions, deletionsOf, listJoin, List.map_cons]
    cases hd : strContains q "DELETE" <;>
      simp [hd, runTransitions_spec exec rest, deletionsOf, List.append_assoc]

/-- Evaluation of `switch_commit` on the successful path: with a valid call,
a recorded checkpoint different from the target, both commits found, and the
direction-selected transition fetch succeeding, the switch replays exactly
the fetched payloads and writes the new checkpoint. -/
theorem switch_commit_eval (exec : String → String → List Int) (ck : CkptStore)
    (gg : GitGraph) (repo tgt : String)
    (hr : ¬ repo = "") (ht : ¬ tgt = "")
    (ch : String) (hck : get_repo_commit ck repo = some ch) (hne : ¬ ch = tgt)
    (c0 c1 : Commit) (hcs : gg.get_commits [ch, tgt] = .ok [c0, c1])
    (cur nw : Commit)
    (hor : (cur, nw) = if c0.hash = ch then (c0, c1) else (c1, c0))
    (qs ps : List (List String))
    (hfetch : (if cur.date > nw.date then gg.get_parent_transitions cur.hash nw.hash
               else gg.get_child_transitions nw.hash cur.hash) = .ok (qs, ps)) :
    switch_commit exec ck gg repo tgt =
      (.ok ⟨(runTransitions exec (flattenTransitions qs ps) emptyChangeSet).1,
            (runTransitions exec (flattenTransitions qs ps) emptyChangeSet).2⟩,
       set_repo_commit ck repo tgt) := by
  have hne2 : ¬ get_repo_commit ck repo = some tgt := by
    rw [hck]
    simpa using hne
  simp only [switch_commit, if_neg hr, if_neg ht, if_neg hne2, hck, lookupHashes, hcs,
    List.length_cons, List.length_nil, Option.some.injEq]
  rw [if_neg hne]
  simp only [List.getD_cons_zero, List.getD_cons_succ]
  by_cases h0 : c0.hash = ch
  · rw [if_pos h0] at hor
    injection hor with hcur hnw
    subst hcur
    subst hnw
    simp only [if_pos h0, hfetch, if_true]
  · rw [if_neg h0] at hor
    injection hor with hcur hnw
    subst hcur
    subst hnw
    simp only [if_neg h0, hfetch, if_true]

/-! ## Claim theorems -/

/-- C1 counterexample: a concrete run of `build_commit_graph` (one-commit
repository, store holding only the source graph) aborts with an error while
the scratch graph `repo_tmp` is still present in the store — the scratch
graph survives this failing run, refuting the claim that it survives no run
and that cleanup precedes error propagation. -/
theorem build_scratch_survives_failure :
    (build_commit_graph ["repo"] repoOne "repo" restStub).1 =
      .error (.typeError "add_commit() missing 3 required positional arguments") ∧
    (build_commit_graph ["repo"] repoOne "repo" restStub).2.contains "repo_tmp" = true := by
  decide

/-- C1 (amended): `build_commit_graph` has no failure-path cleanup: whenever
the scratch name is free, the run creates the `<repo>_tmp` scratch clone and
then aborts with a TypeError (the arity-mismatched `add_commit` call at
git_utils.py line 99); the error propagates with the scratch graph still in
the store and no restoration step running — for every continuation `rest`
standing for the unreachable remainder of the function. -/
theorem build_no_failure_cleanup (store : List String) (repo : GitRepo)
    (repo_name : String) (rest : Graph → List String → BuildOutcome × List String)
    (h : store.contains (repo_name ++ "_tmp") = false) :
    (build_commit_graph store repo repo_name rest).1 =
      .error (.typeError "add_commit() missing 3 required positional arguments") ∧
    (build_commit_graph store repo repo_name rest).2 = store ++ [repo_name ++ "_tmp"] ∧
    (build_commit_graph store repo repo_name rest).2.contains (repo_name ++ "_tmp") = true := by
  have hcl : Graph.clone store ⟨repo_name, none⟩ (repo_name ++ "_tmp") =
      (.ok ⟨repo_name ++ "_tmp", none⟩, store ++ [repo_name ++ "_tmp"]) := by
    unfold Graph.clone
    rw [if_neg (show ¬(store.contains (repo_name ++ "_tmp") = true) from by rw [h]; simp)]
  have hpb : pyBindArgs "add_commit" 4 1 =
      .error (.typeError "add_commit() missing 3 required positional arguments") := by
    decide
  simp only [build_commit_graph, hcl, hpb]
  exact ⟨trivial, trivial, contains_append_self store (repo_name ++ "_tmp")⟩

/-- C1 witness: the amended statement at a concrete input. -/
theorem build_no_failure_cleanup_witness :
    (build_commit_graph ["w"] repoOne "w" restStub).1 =
      .error (.typeError "add_commit() missing 3 required positional arguments") ∧
    (build_commit_graph ["w"] repoOne "w" restStub).2 = ["w"] ++ ["w" ++ "_tmp"] ∧
    (build_commit_graph ["w"] repoOne "w" restStub).2.contains ("w" ++ "_tmp") = true :=
  build_no_failure_cleanup ["w"] repoOne "w" restStub (by decide)

/-- C2: the claim fails against the code — `build_commit_graph` passes the
single Commit object to `GitGraph.add_commit`, whose signature requires
`(commit_hash, author, message, date)` (git_graph.py line 39), so every build
raises TypeError before recording any commit and `get_commits` can never
return the promised record; evaluated here at a failing input (a one-commit
repository and a fresh store). -/
theorem build_add_commit_arity_mismatch :
    build_commit_graph ["r"] repoOne "r" restStub =
      (.error (.typeError "add_commit() missing 3 required positional arguments"),
       ["r", "r_tmp"]) := by
  decide

/-- C3: the claim fails against the code.  On two directly adjacent commits
the PARENT-direction call stores exactly the given operation texts and
parameter sets, but the CHILD-direction call never succeeds:
`set_child_transition` omits the `params` entry from its bound dict
(git_graph.py line 109) although its query references `$params`, so every
call is rejected for a missing parameter and no payload is ever stored. -/
theorem set_child_transition_missing_params :
    GitGraph.set_parent_transition ggAB "b" "a" ["Q1"] ["P1"] =
      .ok ⟨[commitA, commitB], [⟨"b", "a", some ["Q1"], some ["P1"]⟩],
           [⟨"a", "b", none, none⟩]⟩ ∧
    GitGraph.set_child_transition ggAB "b" "a" ["Q1"] ["P1"] = .error .missingParams := by
  decide

/-- C4 counterexample: commits c and a are two hops apart in `ggABC`, yet
`set_parent_transition` succeeds, silently matching nothing and leaving the
graph unchanged, instead of failing with an edge-not-found error. -/
theorem set_parent_transition_nonadjacent_silent :
    GitGraph.set_parent_transition ggABC "c" "a" ["Q"] ["P"] = .ok ggABC := by
  decide

/-- C4 (amended): a transition payload is indeed never attached across
multiple hops — the update touches only single-hop edges of the requested
direction — but non-adjacency is not reported as "edge not found":
`set_parent_transition` on a pair with no direct PARENT edge succeeds as a
silent no-op, and `set_child_transition` fails on every call with a
missing-parameter error, regardless of adjacency. -/
theorem set_transition_nonadjacent_noop (st : GitGraph) (child parent : String)
    (qs ps : List String)
    (h : ∀ e ∈ st.parentEdges, ¬(e.src = child ∧ e.dst = parent)) :
    st.set_parent_transition child parent qs ps = .ok st ∧
    st.set_child_transition child parent qs ps = .error .missingParams := by
  constructor
  · have hmap : st.parentEdges.map (fun e =>
        if e.src = child ∧ e.dst = parent
        then { e with queries := some qs, params := some ps } else e) = st.parentEdges :=
      map_id_of_fixed _ _ (fun e he => by rw [if_neg (h e he)])
    unfold GitGraph.set_parent_transition
    simp only [hmap]
    rfl
  · rfl

/-- C4 witness: the amended statement at the concrete non-adjacent pair. -/
theorem set_transition_nonadjacent_noop_witness :
    GitGraph.set_parent_transition ggABC "c" "a" ["Qw"] ["Pw"] = .ok ggABC ∧
    GitGraph.set_child_transition ggABC "c" "a" ["Qw"] ["Pw"] = .error .missingParams :=
  set_transition_nonadjacent_noop ggABC "c" "a" ["Qw"] ["Pw"] (by decide)

/-- C5: when the checkpoint and target hashes do not resolve to exactly two
commits in the commit graph, `switch_commit` raises the "Commits not found"
ValueError and the checkpoint store is returned unchanged — no checkpoint
write occurs on this path. -/
theorem switch_commit_missing_commits (exec : String → String → List Int)
    (ck : CkptStore) (gg : GitGraph) (repo tgt : String)
    (hr : ¬ repo = "") (ht : ¬ tgt = "")
    (hne : ¬ get_repo_commit ck repo = some tgt)
    (cs : List Commit)
    (hcs : gg.get_commits (lookupHashes (get_repo_commit ck repo) tgt) = .ok cs)
    (hlen : ¬ cs.length = 2) :
    switch_commit exec ck gg repo tgt =
      (.error (.valueError "Commits not found"), ck) := by
  simp only [switch_commit, if_neg hr, if_neg ht, if_neg hne, hcs, if_neg hlen]

/-- C5 witness: switching repository "r" (checkpointed at h1) to the unknown
hash h2 over an empty commit graph. -/
theorem switch_commit_missing_commits_witness :
    switch_commit execW [("r", "h1")] ⟨[], [], []⟩ "r" "h2" =
      (.error (.valueError "Commits not found"), [("r", "h1")]) :=
  switch_commit_missing_commits execW [("r", "h1")] ⟨[], [], []⟩ "r" "h2"
    (by decide) (by decide) (by decide) [] (by decide) (by decide)

/-- C6: with both commits found and the checkpoint differing from the target,
`switch_commit` compares committed dates: a strictly greater current date is
a backward move fetching the PARENT-direction transitions from current to
target, and otherwise (equal dates included) a forward move fetching the
CHILD-direction transitions from current to target; whichever payload that
fetch returns is the one replayed. -/
theorem switch_commit_direction (exec : String → String → List Int) (ck : CkptStore)
    (gg : GitGraph) (repo tgt : String)
    (hr : ¬ repo = "") (ht : ¬ tgt = "")
    (ch : String) (hck : get_repo_commit ck repo = some ch) (hne : ¬ ch = tgt)
    (c0 c1 : Commit) (hcs : gg.get_commits [ch, tgt] = .ok [c0, c1])
    (cur nw : Commit)
    (hor : (cur, nw) = if c0.hash = ch then (c0, c1) else (c1, c0))
    (qs ps : List (List String))
    (hfetch : (if cur.date > nw.date then gg.get_parent_transitions cur.hash nw.hash
               else gg.get_child_transitions nw.hash cur.hash) = .ok (qs, ps)) :
    switch_commit exec ck gg repo tgt =
      (.ok ⟨(runTransitions exec (flattenTransitions qs ps) emptyChangeSet).1,
            (runTransitions exec (flattenTransitions qs ps) emptyChangeSet).2⟩,
       set_repo_commit ck repo tgt) :=
  switch_commit_eval exec ck gg repo tgt hr ht ch hck hne c0 c1 hcs cur nw hor qs ps hfetch

/-- C6 witness: a backward move (current date 2 is strictly after target
date 1) on the two-commit fixture carrying a recorded PARENT payload. -/
theorem switch_commit_direction_witness :
    switch_commit execW ckW ggPay "r" "a" =
      (.ok ⟨(runTransitions execW (flattenTransitions [[delQ]] [["\x7b\x7d"]]) emptyChangeSet).1,
            (runTransitions execW (flattenTransitions [[delQ]] [["\x7b\x7d"]]) emptyChangeSet).2⟩,
       set_repo_commit ckW "r" "a") :=
  switch_commit_direction execW ckW ggPay "r" "a" (by decide) (by decide)
    "b" (by decide) (by decide) commitA commitB (by decide)
    commitB commitA (by decide) [[delQ]] [["\x7b\x7d"]] (by decide)

/-- C7: the replay executes the fetched per-edge payloads in order and,
within each payload, the (operation, parameters) pairs in recorded order with
no reordering or deduplication — the executed trace is exactly the flattened
zip of the fetch result; the deletions node list is exactly the concatenated
engine results of the executed operations whose text contains "DELETE"; and
the additions and modifications sub-fields (as well as the deletions edge
list) come back structurally present but empty. -/
theorem switch_commit_replay (exec : String → String → List Int) (ck : CkptStore)
    (gg : GitGraph) (repo tgt : String)
    (hr : ¬ repo = "") (ht : ¬ tgt = "")
    (ch : String) (hck : get_repo_commit ck repo = some ch) (hne : ¬ ch = tgt)
    (c0 c1 : Commit) (hcs : gg.get_commits [ch, tgt] = .ok [c0, c1])
    (cur nw : Commit)
    (hor : (cur, nw) = if c0.hash = ch then (c0, c1) else (c1, c0))
    (qs ps : List (List String))
    (hfetch : (if cur.date > nw.date then gg.get_parent_transitions cur.hash nw.hash
               else gg.get_child_transitions nw.hash cur.hash) = .ok (qs, ps)) :
    switch_commit exec ck gg repo tgt =
      (.ok ⟨⟨deletionsOf exec (flattenTransitions qs ps), [], [], [], [], []⟩,
            flattenTransitions qs ps⟩,
       set_repo_commit ck repo tgt) := by
  rw [switch_commit_eval exec ck gg repo tgt hr ht ch hck hne c0 c1 hcs cur nw hor qs ps hfetch,
    runTransitions_spec]
  simp [emptyChangeSet]

/-- C7 witness: the replay characterization at the concrete backward move. -/
theorem switch_commit_replay_witness :
    switch_commit execW ckW ggPay "r" "a" =
      (.ok ⟨⟨deletionsOf execW (flattenTransitions [[delQ]] [["\x7b\x7d"]]), [], [], [], [], []⟩,
            flattenTransitions [[delQ]] [["\x7b\x7d"]]⟩,
       set_repo_commit ckW "r" "a") :=
  switch_commit_replay execW ckW ggPay "r" "a" (by decide) (by decide)
    "b" (by decide) (by decide) commitA commitB (by decide)
    commitB commitA (by decide) [[delQ]] [["\x7b\x7d"]] (by decide)

/-- C8: `Graph._query` on a backlog-enabled graph hands back the engine
result unaltered (a single normal execution, never rejected or retried),
appends the (query text, bound parameters) pair to the backlog exactly when a
change was detected and leaves the backlog as it was otherwise, and a change
is detected precisely when at least one of the eight result counters is
positive. -/
theorem query_backlog_contract (name : String) (b : Backlog)
    (engine : String → Option String → QueryResult) (q : String) (p : Option String) :
    (Graph._query ⟨name, some b⟩ engine q p).1 = engine q p ∧
    (Graph._query ⟨name, some b⟩ engine q p).2 =
      (if change_detected (engine q p)
       then ⟨name, some ⟨b.queries ++ [q], b.params ++ [p]⟩⟩
       else ⟨name, some b⟩) ∧
    (change_detected (engine q p) = true ↔
      (0 < (engine q p).nodes_created ∨ 0 < (engine q p).nodes_deleted ∨
       0 < (engine q p).relationships_created ∨ 0 < (engine q p).relationships_deleted ∨
       0 < (engine q p).properties_set ∨ 0 < (engine q p).properties_removed ∨
       0 < (engine q p).labels_added ∨ 0 < (engine q p).labels_removed)) := by
  refine ⟨?_, ?_, change_detected_iff (engine q p)⟩
  · unfold Graph._query
    cases hcd : change_detected (engine q p) <;> simp [hcd]
  · unfold Graph._query
    cases hcd : change_detected (engine q p) <;> simp [hcd]

/-- C9: `clear_backlog` on an enabled backlog returns the query list and the
index-aligned parameter list and resets the backlog to the empty enabled
state (the same state `enable_backlog` produces); on a disabled backlog it
returns two empty lists and the backlog stays disabled. -/
theorem clear_backlog_spec (name : String) (b : Backlog) :
    Graph.clear_backlog ⟨name, some b⟩ = ((b.queries, b.params), ⟨name, some ⟨[], []⟩⟩) ∧
    (Graph.clear_backlog ⟨name, some b⟩).2 = Graph.enable_backlog ⟨name, some b⟩ ∧
    Graph.clear_backlog ⟨name, none⟩ = (([], []), ⟨name, none⟩) :=
  ⟨rfl, rfl, rfl⟩

/-- C10: `Graph.clone` raises and leaves the store unchanged when a key with
the target name already exists, and any successful clone returns only with
the cloned name present in the store; consequently `build_commit_graph` on a
repository whose `<repo>_tmp` scratch graph was left behind by an earlier
aborted run fails at the cloning step with the store untouched — before
applying any mutation. -/
theorem clone_guard (store : List String) (g : Graph) (repo : GitRepo)
    (rest : Graph → List String → BuildOutcome × List String) (repo_name : String)
    (h : store.contains (repo_name ++ "_tmp") = true) :
    Graph.clone store g (repo_name ++ "_tmp") =
      (.error (.exception ("Can not create clone, key: " ++ (repo_name ++ "_tmp") ++
        " already exists.")), store) ∧
    build_commit_graph store repo repo_name rest =
      (.error (.exception ("Can not create clone, key: " ++ (repo_name ++ "_tmp") ++
        " already exists.")), store) ∧
    (∀ (s : List String) (g2 : Graph) (nm : String) (g3 : Graph) (s2 : List String),
      Graph.clone s g2 nm = (.ok g3, s2) → s2.contains nm = true) := by
  have hcl : ∀ (g0 : Graph), Graph.clone store g0 (repo_name ++ "_tmp") =
      (.error (.exception ("Can not create clone, key: " ++ (repo_name ++ "_tmp") ++
        " already exists.")), store) := by
    intro g0
    unfold Graph.clone
    rw [if_pos h]
  refine ⟨hcl g, ?_, ?_⟩
  · simp only [build_commit_graph, hcl]
  · intro s g2 nm g3 s2 hc
    unfold Graph.clone at hc
    by_cases hx : s.contains nm = true
    · rw [if_pos hx] at hc
      simp at hc
    · rw [if_neg hx] at hc
      injection hc with h1 h2
      rw [← h2]
      exact contains_append_self s nm

/-- C10 witness: the guard at a concrete store already holding r_tmp. -/
theorem clone_guard_witness :
    Graph.clone ["r", "r_tmp"] ⟨"r", none⟩ ("r" ++ "_tmp") =
      (.error (.exception ("Can not create clone, key: " ++ ("r" ++ "_tmp") ++
        " already exists.")), ["r", "r_tmp"]) ∧
    build_commit_graph ["r", "r_tmp"] repoOne "r" restStub =
      (.error (.exception ("Can not create clone, key: " ++ ("r" ++ "_tmp") ++
        " already exists.")), ["r", "r_tmp"]) :=
  ⟨(clone_guard ["r", "r_tmp"] ⟨"r", none⟩ repoOne restStub "r" (by decide)).1,
   (clone_guard ["r", "r_tmp"] ⟨"r", none⟩ repoOne restStub "r" (by decide)).2.1⟩
